import Mathlib

/-!
Verification of the PromptLab storage/versioning core (`backend/app`).

The Python program keeps three insertion-ordered dictionaries (prompts,
collections, prompt versions) keyed by string ids, and exposes CRUD,
versioning/revert, and query operations over them.  We embed the program
shallowly:

* a Python `dict` becomes an association-ordered list of records keyed by
  the record's id, with `dictSet` modelling `d[k] = v` (replace in place if
  the key is present, append otherwise);
* `uuid4()` becomes an injective generator `genId` fed from a counter held
  in `AppState` (the source assumes uuids never collide);
* `datetime` timestamps become `Nat`, supplied to each operation as a
  `now` argument;
* Python `sorted(xs, key=k, reverse=b)` (a stable sort) becomes
  `List.mergeSort` with the corresponding boolean comparator;
* raising `HTTPException` becomes returning `Except.error` with the
  untouched state; Optional[str] truthiness (`if collection_id`) is
  modelled explicitly (`none` and `some ""` are falsy).
-/

/-- Model of Python `d[k] = v` on an insertion-ordered table of records
keyed by `key`: replace in place when the key is present, else append. -/
def dictSet (key : α → String) (k : String) (x : α) : List α → List α
  | [] => [x]
  | y :: ys => if key y == k then x :: ys else y :: dictSet key k x ys

/-- Model of `uuid4()`: an injective id generator driven by a counter
(the source assumes generated ids are collision-free). -/
def genId (n : Nat) : String :=
  String.mk (List.replicate (n + 1) 'v')

/-- Python `max(list, default=0)` over naturals. -/
def pyMax (l : List Nat) : Nat := l.foldr Nat.max 0

/-- `natSeq s n = [s, s+1, ..., s+n-1]`. -/
def natSeq : Nat → Nat → List Nat
  | _, 0 => []
  | s, n + 1 => s :: natSeq (s + 1) n

/-- Python `needle in haystack` on lists of characters (substring test). -/
def charsIn (q : List Char) : List Char → Bool
  | [] => q.isPrefixOf []
  | c :: t => q.isPrefixOf (c :: t) || charsIn q t

/-- Python `needle in haystack` on strings (substring containment). -/
def pyIn (needle haystack : String) : Bool :=
  charsIn needle.toList haystack.toList

/-- Python `str.lower()`: character-wise lowercasing (ASCII letters). -/
def pyLower (s : String) : String :=
  String.mk (s.toList.map Char.toLower)

/-- Python truthiness of an `Optional[str]`: `None` and `""` are falsy. -/
def pyTruthy : Option String → Bool
  | none => false
  | some s => s != ""

/-- `app.models.Prompt` (ids opaque strings, datetimes as `Nat`). -/
structure Prompt where
  title : String
  content : String
  description : Option String
  collection_id : Option String
  id : String
  created_at : Nat
  updated_at : Nat
deriving DecidableEq, Repr

/-- `app.models.Collection`. -/
structure Collection where
  name : String
  description : Option String
  id : String
  created_at : Nat
deriving DecidableEq, Repr

/-- `app.models.PromptVersion`. -/
structure PromptVersion where
  id : String
  prompt_id : String
  title : String
  content : String
  description : Option String
  version_number : Nat
  created_at : Nat
deriving DecidableEq, Repr

/-- `app.models.PromptCreate` (request body for prompt creation). -/
structure PromptCreate where
  title : String
  content : String
  description : Option String
  collection_id : Option String
deriving DecidableEq, Repr

/-- `app.models.PromptUpdate` (request body for prompt update). -/
structure PromptUpdate where
  title : String
  content : String
  description : Option String
  collection_id : Option String
deriving DecidableEq, Repr

/-- `app.models.PromptVersionCreate` (request body for version creation). -/
structure PromptVersionCreate where
  title : String
  content : String
  description : Option String
deriving DecidableEq, Repr

/-- Outcome signalled by raising `HTTPException` in the routing layer:
`notFound` is status 404, `badRequest` is status 400. -/
inductive ApiError where
  | notFound (detail : String)
  | badRequest (detail : String)
deriving DecidableEq, Repr

deriving instance DecidableEq for Except

def ERROR_PROMPT_NOT_FOUND : String := "Prompt not found"
def ERROR_COLLECTION_NOT_FOUND : String := "Collection not found"
def ERROR_VERSION_NOT_FOUND : String := "Version not found"

/-- `app.storage.Storage`: the three in-memory dictionaries, each embedded
as an insertion-ordered list of records keyed by the record's `id`. -/
structure Storage where
  _prompts : List Prompt
  _collections : List Collection
  _prompt_versions : List PromptVersion
deriving DecidableEq, Repr

namespace Storage

def create_prompt (s : Storage) (prompt : Prompt) : Prompt × Storage :=
  (prompt, { s with _prompts := dictSet Prompt.id prompt.id prompt s._prompts })

def get_prompt (s : Storage) (prompt_id : String) : Option Prompt :=
  s._prompts.find? (fun p => p.id == prompt_id)

def get_all_prompts (s : Storage) : List Prompt :=
  s._prompts

def update_prompt (s : Storage) (prompt_id : String) (prompt : Prompt) :
    Option Prompt × Storage :=
  if s._prompts.any (fun p => p.id == prompt_id) then
    (some prompt, { s with _prompts := dictSet Prompt.id prompt_id prompt s._prompts })
  else
    (none, s)

def delete_prompt (s : Storage) (prompt_id : String) : Bool × Storage :=
  if s._prompts.any (fun p => p.id == prompt_id) then
    (true, { s with _prompts := s._prompts.filter (fun p => !(p.id == prompt_id)) })
  else
    (false, s)

def create_collection (s : Storage) (collection : Collection) : Collection × Storage :=
  (collection,
   { s with _collections := dictSet Collection.id collection.id collection s._collections })

def get_collection (s : Storage) (collection_id : String) : Option Collection :=
  s._collections.find? (fun c => c.id == collection_id)

def get_all_collections (s : Storage) : List Collection :=
  s._collections

def delete_collection (s : Storage) (collection_id : String) : Bool × Storage :=
  if s._collections.any (fun c => c.id == collection_id) then
    (true, { s with _collections := s._collections.filter (fun c => !(c.id == collection_id)) })
  else
    (false, s)

def get_prompts_by_collection (s : Storage) (collection_id : String) : List Prompt :=
  s._prompts.filter (fun p => p.collection_id == some collection_id)

def create_version (s : Storage) (version : PromptVersion) : PromptVersion × Storage :=
  (version,
   { s with _prompt_versions := dictSet PromptVersion.id version.id version s._prompt_versions })

def get_version (s : Storage) (version_id : String) : Option PromptVersion :=
  s._prompt_versions.find? (fun v => v.id == version_id)

def get_versions_by_prompt (s : Storage) (prompt_id : String) : List PromptVersion :=
  s._prompt_versions.filter (fun v => v.prompt_id == prompt_id)

def get_latest_version_number (s : Storage) (prompt_id : String) : Nat :=
  pyMax ((s.get_versions_by_prompt prompt_id).map PromptVersion.version_number)

end Storage

/-- `app.utils.sort_prompts_by_date`: Python's `sorted` is a stable sort,
embedded as `List.mergeSort` with the comparator induced by `key`/`reverse`. -/
def sort_prompts_by_date (prompts : List Prompt) (descending : Bool) : List Prompt :=
  prompts.mergeSort (fun a b =>
    if descending then Nat.ble b.created_at a.created_at
    else Nat.ble a.created_at b.created_at)

/-- `app.utils.filter_prompts_by_collection`. -/
def filter_prompts_by_collection (prompts : List Prompt) (collection_id : String) :
    List Prompt :=
  prompts.filter (fun p => p.collection_id == some collection_id)

/-- `app.utils.search_prompts`: case-insensitive substring match on title
or description; `p.description and ...` uses Python truthiness. -/
def search_prompts (prompts : List Prompt) (query : String) : List Prompt :=
  let query_lower := pyLower query
  prompts.filter (fun p =>
    pyIn query_lower (pyLower p.title) ||
    (match p.description with
     | none => false
     | some d => (d != "") && pyIn query_lower (pyLower d)))

/-- Process state: the storage singleton plus the uuid-generator counter. -/
structure AppState where
  storage : Storage
  nextId : Nat
deriving DecidableEq, Repr

/-- `app.api._validate_collection_exists`, as the predicate "raises
HTTP 400": true iff `collection_id` is truthy (non-null, non-empty) and the
collection lookup fails. -/
def validate_collection_fails (s : Storage) (collection_id : Option String) : Bool :=
  pyTruthy collection_id &&
    (match collection_id with
     | none => false
     | some c => (s.get_collection c).isNone)

/-- `app.api.create_prompt` (POST /prompts). -/
def create_prompt (st : AppState) (prompt_data : PromptCreate) (now : Nat) :
    Except ApiError Prompt × AppState :=
  if validate_collection_fails st.storage prompt_data.collection_id then
    (.error (.badRequest ERROR_COLLECTION_NOT_FOUND), st)
  else
    let prompt : Prompt :=
      { title := prompt_data.title
        content := prompt_data.content
        description := prompt_data.description
        collection_id := prompt_data.collection_id
        id := genId st.nextId
        created_at := now
        updated_at := now }
    let (p, s2) := st.storage.create_prompt prompt
    (.ok p, { storage := s2, nextId := st.nextId + 1 })

/-- `app.api.get_prompt` (GET /prompts/id). -/
def get_prompt (st : AppState) (prompt_id : String) : Except ApiError Prompt :=
  match st.storage.get_prompt prompt_id with
  | none => .error (.notFound ERROR_PROMPT_NOT_FOUND)
  | some prompt => .ok prompt

/-- `app.api.update_prompt` (PUT /prompts/id).  The inner `none` branch of
the storage update is unreachable here because the prompt was just found. -/
def update_prompt (st : AppState) (prompt_id : String) (prompt_data : PromptUpdate)
    (now : Nat) : Except ApiError Prompt × AppState :=
  match st.storage.get_prompt prompt_id with
  | none => (.error (.notFound ERROR_PROMPT_NOT_FOUND), st)
  | some existing =>
    if validate_collection_fails st.storage prompt_data.collection_id then
      (.error (.badRequest ERROR_COLLECTION_NOT_FOUND), st)
    else
      let updated_prompt : Prompt :=
        { id := existing.id
          title := prompt_data.title
          content := prompt_data.content
          description := prompt_data.description
          collection_id := prompt_data.collection_id
          created_at := existing.created_at
          updated_at := now }
      let (r, s2) := st.storage.update_prompt prompt_id updated_prompt
      (match r with
       | some p => .ok p
       | none => .error (.notFound ERROR_PROMPT_NOT_FOUND),
       { st with storage := s2 })

/-- `app.api.delete_prompt` (DELETE /prompts/id). -/
def delete_prompt (st : AppState) (prompt_id : String) :
    Except ApiError Unit × AppState :=
  let (deleted, s2) := st.storage.delete_prompt prompt_id
  if !deleted then (.error (.notFound ERROR_PROMPT_NOT_FOUND), { st with storage := s2 })
  else (.ok (), { st with storage := s2 })

/-- `app.api.delete_collection` (DELETE /collections/id): delete the
collection, then delete every prompt belonging to it. -/
def delete_collection (st : AppState) (collection_id : String) :
    Except ApiError Unit × AppState :=
  let (deleted, s1) := st.storage.delete_collection collection_id
  if !deleted then
    (.error (.notFound ERROR_COLLECTION_NOT_FOUND), { st with storage := s1 })
  else
    let prompts := s1.get_prompts_by_collection collection_id
    let s2 := prompts.foldl (fun s p => (s.delete_prompt p.id).2) s1
    (.ok (), { st with storage := s2 })

/-- `app.api.list_prompt_versions` (GET /prompts/id/versions). -/
def list_prompt_versions (st : AppState) (prompt_id : String) :
    Except ApiError (List PromptVersion) :=
  match st.storage.get_prompt prompt_id with
  | none => .error (.notFound ERROR_PROMPT_NOT_FOUND)
  | some _ =>
    .ok ((st.storage.get_versions_by_prompt prompt_id).mergeSort
      (fun a b => Nat.ble b.version_number a.version_number))

/-- `app.api.get_prompt_version` (GET /prompts/id/versions/vid). -/
def get_prompt_version (st : AppState) (prompt_id version_id : String) :
    Except ApiError PromptVersion :=
  match st.storage.get_version version_id with
  | none => .error (.notFound ERROR_VERSION_NOT_FOUND)
  | some version =>
    if version.prompt_id != prompt_id then .error (.notFound ERROR_VERSION_NOT_FOUND)
    else .ok version

/-- `app.api.create_prompt_version` (POST /prompts/id/versions). -/
def create_prompt_version (st : AppState) (prompt_id : String)
    (version_data : PromptVersionCreate) (now : Nat) :
    Except ApiError PromptVersion × AppState :=
  match st.storage.get_prompt prompt_id with
  | none => (.error (.notFound ERROR_PROMPT_NOT_FOUND), st)
  | some _ =>
    let next_version_number := st.storage.get_latest_version_number prompt_id + 1
    let version : PromptVersion :=
      { id := genId st.nextId
        prompt_id := prompt_id
        title := version_data.title
        content := version_data.content
        description := version_data.description
        version_number := next_version_number
        created_at := now }
    let (v, s2) := st.storage.create_version version
    (.ok v, { storage := s2, nextId := st.nextId + 1 })

/-- `app.api.revert_to_version` (POST /prompts/id/versions/vid/revert). -/
def revert_to_version (st : AppState) (prompt_id version_id : String) (now : Nat) :
    Except ApiError PromptVersion × AppState :=
  match st.storage.get_version version_id with
  | none => (.error (.notFound ERROR_VERSION_NOT_FOUND), st)
  | some old_version =>
    if old_version.prompt_id != prompt_id then
      (.error (.notFound ERROR_VERSION_NOT_FOUND), st)
    else
      let next_version_number := st.storage.get_latest_version_number prompt_id + 1
      let new_version : PromptVersion :=
        { id := genId st.nextId
          prompt_id := prompt_id
          title := old_version.title
          content := old_version.content
          description := some ("Reverted to version " ++ toString old_version.version_number)
          version_number := next_version_number
          created_at := now }
      let (v, s2) := st.storage.create_version new_version
      (.ok v, { storage := s2, nextId := st.nextId + 1 })

/-- Version-table operations reachable in claim C1: `create_prompt_version`
and `revert_to_version`, each with its request data and clock reading. -/
inductive VOp where
  | createV (prompt_id : String) (data : PromptVersionCreate) (now : Nat)
  | revertV (prompt_id version_id : String) (now : Nat)

/-- Apply one version operation, keeping only the state. -/
def applyVOp (st : AppState) : VOp → AppState
  | .createV pid d now => (create_prompt_version st pid d now).2
  | .revertV pid vid now => (revert_to_version st pid vid now).2

/-- Run a sequence of version operations. -/
def runVOps (st : AppState) (ops : List VOp) : AppState :=
  ops.foldl applyVOp st

/-- The search predicate as the specification words it: the title contains
the query case-insensitively, or the description is non-null and contains
the query case-insensitively. -/
def specSearchMatch (query : String) (p : Prompt) : Bool :=
  pyIn (pyLower query) (pyLower p.title) ||
  (match p.description with
   | none => false
   | some d => pyIn (pyLower query) (pyLower d))

/-! ## Helper lemmas -/

theorem genId_inj {m n : Nat} (h : genId m = genId n) : m = n := by
  have h2 : List.replicate (m + 1) 'v' = List.replicate (n + 1) 'v' :=
    congrArg String.data h
  have h3 := congrArg List.length h2
  simp only [List.length_replicate] at h3
  omega

theorem dictSet_of_fresh (key : α → String) (x : α) (l : List α)
    (h : ∀ y ∈ l, key y ≠ key x) : dictSet key (key x) x l = l ++ [x] := by
  induction l with
  | nil => rfl
  | cons y ys ih =>
    have hy : (key y == key x) = false := by
      simp [h y (List.mem_cons_self y ys)]
    simp only [dictSet, hy, Bool.false_eq_true, if_false, List.cons_append,
      List.cons.injEq, true_and]
    exact ih (fun z hz => h z (List.mem_cons_of_mem y hz))

theorem pyMax_append_singleton (l : List Nat) (a : Nat) :
    pyMax (l ++ [a]) = Nat.max (pyMax l) a := by
  unfold pyMax
  induction l with
  | nil => simp [Nat.max_comm]
  | cons x xs ih =>
    simp only [List.cons_append, List.foldr_cons, ih]
    exact (Nat.max_assoc x (List.foldr Nat.max 0 xs) a).symm

theorem natSeq_snoc (s n : Nat) : natSeq s (n + 1) = natSeq s n ++ [s + n] := by
  induction n generalizing s with
  | zero => rfl
  | succ n ih =>
    have h1 : natSeq s (n + 2) = s :: natSeq (s + 1) (n + 1) := rfl
    rw [h1, ih, show s + 1 + n = s + (n + 1) by omega]
    rfl

theorem pyMax_natSeq_one (n : Nat) : pyMax (natSeq 1 n) = n := by
  induction n with
  | zero => rfl
  | succ n ih =>
    rw [natSeq_snoc, pyMax_append_singleton, ih]
    exact (Nat.max_eq_right (by omega : n ≤ 1 + n)).trans (by omega)

theorem natSeq_mem (m : Nat) : ∀ s n, m ∈ natSeq s n ↔ s ≤ m ∧ m < s + n := by
  intro s n
  induction n generalizing s with
  | zero => simp [natSeq]
  | succ n ih =>
    simp only [natSeq, List.mem_cons, ih]
    omega

theorem charsIn_nil_left (l : List Char) : charsIn [] l = true := by
  induction l with
  | nil => rfl
  | cons c t ih => simp [charsIn, List.isPrefixOf]

/-! ## C3: revert / fetch with a missing or mismatched version -/

/-- C3: if no version with id `version_id` exists, or its `prompt_id` differs
from the supplied one, both `revert_to_version` and `get_prompt_version` fail
with NotFound, and revert leaves the whole state unchanged. -/
theorem c3_revert_and_fetch_not_found (st : AppState) (pid vid : String) (now : Nat)
    (h : ∀ v, st.storage.get_version vid = some v → v.prompt_id ≠ pid) :
    revert_to_version st pid vid now =
      (.error (.notFound ERROR_VERSION_NOT_FOUND), st) ∧
    get_prompt_version st pid vid = .error (.notFound ERROR_VERSION_NOT_FOUND) := by
  unfold revert_to_version get_prompt_version
  cases hv : st.storage.get_version vid with
  | none => exact ⟨rfl, rfl⟩
  | some v =>
    have hne : (v.prompt_id != pid) = true := by
      simpa using h v hv
    simp [hne]

/-- A concrete version record used by witness states. -/
def wVersion1 : PromptVersion :=
  { id := "v1", prompt_id := "p", title := "t", content := "c",
    description := none, version_number := 1, created_at := 0 }

/-- A concrete state holding a single version owned by prompt "p". -/
def wState1 : AppState :=
  { storage := { _prompts := [], _collections := [], _prompt_versions := [wVersion1] },
    nextId := 3 }

/-- Witness for C3: fetching and reverting version "v1" (owned by prompt
"p") through the foreign prompt id "q" fails with NotFound. -/
theorem c3_witness :
    revert_to_version wState1 "q" "v1" 5 =
      (.error (.notFound ERROR_VERSION_NOT_FOUND), wState1) ∧
    get_prompt_version wState1 "q" "v1" =
      .error (.notFound ERROR_VERSION_NOT_FOUND) :=
  c3_revert_and_fetch_not_found wState1 "q" "v1" 5
    (by intro v hv; injection hv with h2; subst h2; decide)

/-! ## C9: deleting a prompt never touches versions or collections -/

/-- C9: `delete_prompt` removes only the matching entry of the prompt
table; the version and collection tables and the id counter are untouched,
so versions of a deleted prompt all remain stored. -/
theorem c9_delete_prompt_frame (st : AppState) (pid : String) :
    (delete_prompt st pid).2.storage._prompt_versions
      = st.storage._prompt_versions ∧
    (delete_prompt st pid).2.storage._collections = st.storage._collections ∧
    (delete_prompt st pid).2.storage._prompts
      = st.storage._prompts.filter (fun p => !(p.id == pid)) ∧
    (delete_prompt st pid).2.nextId = st.nextId := by
  unfold delete_prompt Storage.delete_prompt
  by_cases h : st.storage._prompts.any (fun p => p.id == pid) = true
  · simp [h]
  · have hall : ∀ p ∈ st.storage._prompts, ¬(p.id == pid) = true := by
      simpa using List.any_eq_false.mp (Bool.eq_false_iff.mpr h)
    have hfil : st.storage._prompts.filter (fun p => !(p.id == pid))
        = st.storage._prompts := by
      apply List.filter_eq_self.mpr
      intro a ha
      simp [hall a ha]
    simp [h, hfil]

/-! ## C5: search semantics -/

/-- C5: `search_prompts` returns exactly the subsequence of prompts whose
title contains the query case-insensitively, or whose description is
non-null and contains the query case-insensitively (null descriptions are
matched on title only), and the empty query returns the input unchanged. -/
theorem c5_search_semantics (prompts : List Prompt) (query : String) :
    search_prompts prompts query = prompts.filter (specSearchMatch query) ∧
    search_prompts prompts "" = prompts := by
  constructor
  · unfold search_prompts specSearchMatch
    apply List.filter_congr
    intro p _
    cases hd : p.description with
    | none => rfl
    | some d =>
      dsimp only
      by_cases hde : d = ""
      · subst hde
        have h1 : (("" : String) != "") = false := by decide
        rw [h1, Bool.false_and, Bool.or_false]
        cases hq : (pyLower query).toList with
        | nil =>
          have ht : pyIn (pyLower query) (pyLower p.title) = true := by
            unfold pyIn
            rw [hq]
            exact charsIn_nil_left _
          rw [ht]
          rfl
        | cons c cs =>
          have he : pyIn (pyLower query) (pyLower "") = false := by
            unfold pyIn
            rw [hq]
            rfl
          rw [he, Bool.or_false]
      · have h1 : (d != "") = true := by simp [hde]
        rw [h1, Bool.true_and]
  · unfold search_prompts
    apply List.filter_eq_self.mpr
    intro p _
    have ht : pyIn (pyLower "") (pyLower p.title) = true := charsIn_nil_left _
    rw [ht, Bool.true_or]

/-! ## C6: sort by creation date, descending, stable -/

/-- C6: `sort_prompts_by_date` with `descending := true` returns a
permutation of its input that is ordered by `created_at` descending, and it
is stable: the subsequence of prompts having any fixed timestamp is
preserved exactly. -/
theorem c6_sort_desc_stable (prompts : List Prompt) :
    (sort_prompts_by_date prompts true).Perm prompts ∧
    (sort_prompts_by_date prompts true).Pairwise
      (fun a b => b.created_at ≤ a.created_at) ∧
    ∀ t : Nat,
      (sort_prompts_by_date prompts true).filter (fun p => p.created_at == t)
        = prompts.filter (fun p => p.created_at == t) := by
  have hdef : sort_prompts_by_date prompts true
      = prompts.mergeSort (fun a b => Nat.ble b.created_at a.created_at) := rfl
  have htrans : ∀ a b c : Prompt,
      Nat.ble b.created_at a.created_at → Nat.ble c.created_at b.created_at →
      Nat.ble c.created_at a.created_at := by
    intro a b c h1 h2
    simp only [Nat.ble_eq] at h1 h2 ⊢
    omega
  have htotal : ∀ a b : Prompt,
      (Nat.ble b.created_at a.created_at || Nat.ble a.created_at b.created_at) = true := by
    intro a b
    rcases Nat.le_total b.created_at a.created_at with h | h
    · rw [Nat.ble_eq_true_of_le h, Bool.true_or]
    · rw [Nat.ble_eq_true_of_le h, Bool.or_true]
  refine ⟨?_, ?_, ?_⟩
  · rw [hdef]
    exact List.mergeSort_perm prompts _
  · rw [hdef]
    exact (List.sorted_mergeSort htrans htotal prompts).imp
      (fun h => Nat.le_of_ble_eq_true h)
  · intro t
    rw [hdef]
    have hc : (prompts.filter (fun p => p.created_at == t)).Pairwise
        (fun a b : Prompt => Nat.ble b.created_at a.created_at) := by
      apply List.pairwise_of_forall_mem_list
      intro a ha b hb
      have ha3 : a.created_at = t := by simpa using (List.mem_filter.mp ha).2
      have hb3 : b.created_at = t := by simpa using (List.mem_filter.mp hb).2
      show Nat.ble b.created_at a.created_at = true
      rw [ha3, hb3]
      exact Nat.ble_eq_true_of_le (Nat.le_refl t)
    have hsub : List.Sublist (prompts.filter (fun p => p.created_at == t))
        (prompts.mergeSort (fun a b => Nat.ble b.created_at a.created_at)) :=
      List.sublist_mergeSort htrans htotal hc (List.filter_sublist prompts)
    have h0 : (prompts.filter (fun p => p.created_at == t)).filter
        (fun p => p.created_at == t) = prompts.filter (fun p => p.created_at == t) := by
      rw [List.filter_filter]
      apply List.filter_congr
      intro a _
      exact Bool.and_self _
    have hsub2 := List.Sublist.filter (fun p => p.created_at == t) hsub
    rw [h0] at hsub2
    have hperm := List.Perm.filter (fun p => p.created_at == t)
      (List.mergeSort_perm prompts (fun a b => Nat.ble b.created_at a.created_at))
    exact (hsub2.eq_of_length hperm.length_eq.symm).symm

/-! ## C1: version numbers are gapless over any create/revert sequence -/

/-- Representation invariant maintained by version-table operations: all
stored version ids come from the id generator below the current counter
(so the next generated id is fresh), and for every prompt the stored
version numbers, in table order, are exactly `[1, ..., k]`. -/
def VInv (st : AppState) : Prop :=
  (∀ v ∈ st.storage._prompt_versions, ∃ k, k < st.nextId ∧ v.id = genId k) ∧
  ∀ pid, (st.storage.get_versions_by_prompt pid).map PromptVersion.version_number
      = natSeq 1 (st.storage.get_versions_by_prompt pid).length

theorem vinv_fresh (st : AppState) (hinv : VInv st) :
    ∀ w ∈ st.storage._prompt_versions, w.id ≠ genId st.nextId := by
  intro w hw heq
  obtain ⟨k, hk, hkid⟩ := hinv.1 w hw
  have h2 := genId_inj (hkid.symm.trans heq)
  omega

theorem vinv_create_version (st : AppState) (hinv : VInv st) (v : PromptVersion)
    (hid : v.id = genId st.nextId)
    (hnum : v.version_number = st.storage.get_latest_version_number v.prompt_id + 1) :
    VInv { storage := (st.storage.create_version v).2, nextId := st.nextId + 1 } := by
  have hfresh : ∀ w ∈ st.storage._prompt_versions, w.id ≠ v.id := by
    intro w hw
    rw [hid]
    exact vinv_fresh st hinv w hw
  have happ : (st.storage.create_version v).2._prompt_versions
      = st.storage._prompt_versions ++ [v] := by
    show dictSet PromptVersion.id v.id v st.storage._prompt_versions = _
    exact dictSet_of_fresh PromptVersion.id v st.storage._prompt_versions hfresh
  constructor
  · intro w hw
    have hw2 : w ∈ st.storage._prompt_versions ++ [v] := by
      rw [← happ]
      exact hw
    rcases List.mem_append.mp hw2 with hw1 | hw3
    · obtain ⟨k, hk, hkid⟩ := hinv.1 w hw1
      exact ⟨k, Nat.lt_succ_of_lt hk, hkid⟩
    · have hwv : w = v := by simpa using hw3
      exact ⟨st.nextId, Nat.lt_succ_self st.nextId, by rw [hwv, hid]⟩
  · intro pid
    show (((st.storage.create_version v).2.get_versions_by_prompt pid).map
        PromptVersion.version_number)
      = natSeq 1 ((st.storage.create_version v).2.get_versions_by_prompt pid).length
    unfold Storage.get_versions_by_prompt
    rw [happ, List.filter_append]
    have h2 := hinv.2 pid
    unfold Storage.get_versions_by_prompt at h2
    by_cases hp : v.prompt_id = pid
    · have hv1 : List.filter (fun w => w.prompt_id == pid) [v] = [v] := by
        simp [hp]
      have h3 : v.version_number
          = (List.filter (fun w => w.prompt_id == pid)
              st.storage._prompt_versions).length + 1 := by
        rw [hnum, hp]
        unfold Storage.get_latest_version_number Storage.get_versions_by_prompt
        rw [h2, pyMax_natSeq_one]
      rw [hv1, List.map_append, List.length_append, h2]
      simp only [List.map_cons, List.map_nil, List.length_cons, List.length_nil]
      rw [h3, natSeq_snoc]
      have : (1 : Nat) + (List.filter (fun w => w.prompt_id == pid)
          st.storage._prompt_versions).length
          = (List.filter (fun w => w.prompt_id == pid)
              st.storage._prompt_versions).length + 1 := by omega
      rw [this]
    · have hv0 : List.filter (fun w => w.prompt_id == pid) [v] = [] := by
        simp [hp]
      rw [hv0, List.append_nil]
      exact h2

theorem vinv_applyVOp (st : AppState) (hinv : VInv st) (op : VOp) :
    VInv (applyVOp st op) := by
  cases op with
  | createV pid d now =>
    show VInv (create_prompt_version st pid d now).2
    unfold create_prompt_version
    cases hp : st.storage.get_prompt pid with
    | none => exact hinv
    | some p => exact vinv_create_version st hinv _ rfl rfl
  | revertV pid vid now =>
    show VInv (revert_to_version st pid vid now).2
    cases hv : st.storage.get_version vid with
    | none =>
      simp only [revert_to_version, hv]
      exact hinv
    | some old =>
      cases hne : (old.prompt_id != pid) with
      | true =>
        simp only [revert_to_version, hv, hne, if_true]
        exact hinv
      | false =>
        simp only [revert_to_version, hv, hne]
        exact vinv_create_version st hinv _ rfl rfl

theorem vinv_runVOps (ops : List VOp) (st : AppState) (hinv : VInv st) :
    VInv (runVOps st ops) := by
  induction ops generalizing st with
  | nil => exact hinv
  | cons op ops ih => exact ih _ (vinv_applyVOp st hinv op)

/-- C1: starting from any state with an empty version table, after any
sequence of create-version and revert operations, the version numbers
stored for each prompt are exactly `[1, ..., k]` (so as a set they are
`{1, ..., k}` where `k` is the number of versions created for that
prompt), and the next version number (1 + the maximum existing number, or
1 when none exist) equals `k + 1`. -/
theorem c1_version_numbers_gapless (ops : List VOp) (st0 : AppState)
    (h0 : st0.storage._prompt_versions = []) :
    ∀ pid : String,
      ((runVOps st0 ops).storage.get_versions_by_prompt pid).map
          PromptVersion.version_number
        = natSeq 1 ((runVOps st0 ops).storage.get_versions_by_prompt pid).length ∧
      (∀ m : Nat,
        m ∈ ((runVOps st0 ops).storage.get_versions_by_prompt pid).map
                PromptVersion.version_number
          ↔ 1 ≤ m ∧
            m ≤ ((runVOps st0 ops).storage.get_versions_by_prompt pid).length) ∧
      (runVOps st0 ops).storage.get_latest_version_number pid + 1
        = ((runVOps st0 ops).storage.get_versions_by_prompt pid).length + 1 := by
  have hinv0 : VInv st0 := by
    constructor
    · intro v hv
      rw [h0] at hv
      exact absurd hv (List.not_mem_nil v)
    · intro pid
      unfold Storage.get_versions_by_prompt
      rw [h0]
      rfl
  have hinv := vinv_runVOps ops st0 hinv0
  intro pid
  refine ⟨hinv.2 pid, ?_, ?_⟩
  · intro m
    rw [hinv.2 pid, natSeq_mem]
    omega
  · unfold Storage.get_latest_version_number
    rw [hinv.2 pid, pyMax_natSeq_one]

/-- The prompt used by the concrete scenarios below. -/
def wPrompt : Prompt :=
  { title := "Alpha", content := "Alpha body text", description := none,
    collection_id := none, id := "p", created_at := 0, updated_at := 0 }

/-- Concrete start state for the C1 scenario: one prompt, no versions. -/
def c1State : AppState :=
  { storage := { _prompts := [wPrompt], _collections := [],
                 _prompt_versions := [] },
    nextId := 0 }

/-- Concrete operation sequence: create V1, create V2, revert to V1. -/
def c1Ops : List VOp :=
  [ .createV "p" { title := "V1", content := "C1", description := none } 1,
    .createV "p" { title := "V2", content := "C2", description := none } 2,
    .revertV "p" (genId 0) 3 ]

/-- Witness for C1: after create, create, revert the stored version
numbers for prompt "p" are `[1, 2, 3]` with next number 4. -/
theorem c1_witness :
    ((runVOps c1State c1Ops).storage.get_versions_by_prompt "p").map
        PromptVersion.version_number
      = natSeq 1 ((runVOps c1State c1Ops).storage.get_versions_by_prompt "p").length ∧
    (2 ∈ ((runVOps c1State c1Ops).storage.get_versions_by_prompt "p").map
        PromptVersion.version_number
      ↔ 1 ≤ 2 ∧
        2 ≤ ((runVOps c1State c1Ops).storage.get_versions_by_prompt "p").length) ∧
    (runVOps c1State c1Ops).storage.get_latest_version_number "p" + 1
      = ((runVOps c1State c1Ops).storage.get_versions_by_prompt "p").length + 1 ∧
    ((runVOps c1State c1Ops).storage.get_versions_by_prompt "p").map
        PromptVersion.version_number = [1, 2, 3] :=
  ⟨(c1_version_numbers_gapless c1Ops c1State rfl "p").1,
   (c1_version_numbers_gapless c1Ops c1State rfl "p").2.1 2,
   (c1_version_numbers_gapless c1Ops c1State rfl "p").2.2,
   by decide⟩

/-! ## C2 and C10: successful revert is strictly additive -/

/-- The version record that a successful revert constructs from target
version `v` of prompt `pid`. -/
@[reducible] def revertedVersion (st : AppState) (pid : String) (v : PromptVersion)
    (now : Nat) : PromptVersion :=
  { id := genId st.nextId
    prompt_id := pid
    title := v.title
    content := v.content
    description := some ("Reverted to version " ++ toString v.version_number)
    version_number := st.storage.get_latest_version_number pid + 1
    created_at := now }

/-- Inserting a version with a fresh id appends it to the version table. -/
theorem create_version_append (s : Storage) (v : PromptVersion)
    (hfresh : ∀ w ∈ s._prompt_versions, w.id ≠ v.id) :
    s.create_version v = (v, { s with _prompt_versions := s._prompt_versions ++ [v] }) := by
  unfold Storage.create_version
  rw [dictSet_of_fresh PromptVersion.id v s._prompt_versions hfresh]

/-- A successful revert returns the constructed version and appends it to
the version table, bumping the id counter; nothing else changes. -/
theorem revert_success_eq (st : AppState) (pid vid : String) (now : Nat)
    (v : PromptVersion)
    (hv : st.storage.get_version vid = some v)
    (hpid : v.prompt_id = pid)
    (hfresh : ∀ w ∈ st.storage._prompt_versions, w.id ≠ genId st.nextId) :
    revert_to_version st pid vid now =
      (.ok (revertedVersion st pid v now),
       { storage := { st.storage with _prompt_versions :=
             st.storage._prompt_versions ++ [revertedVersion st pid v now] },
         nextId := st.nextId + 1 }) := by
  have hne2 : ¬((v.prompt_id != pid) = true) := by simp [hpid]
  unfold revert_to_version
  rw [hv]
  dsimp only
  rw [if_neg hne2]
  rw [create_version_append st.storage (revertedVersion st pid v now)
    (fun y hy => hfresh y hy)]

/-- C2: when a version `v` with id `vid` exists and belongs to `pid`,
revert succeeds and appends exactly one new version whose title and
content are copied verbatim from `v`, whose description is
"Reverted to version N" for `v`'s number, and whose number is one greater
than the maximum stored for `pid`; no existing version (and no prompt or
collection) is removed or modified. -/
theorem c2_revert_is_additive (st : AppState) (pid vid : String) (now : Nat)
    (v : PromptVersion)
    (hv : st.storage.get_version vid = some v)
    (hpid : v.prompt_id = pid)
    (hfresh : ∀ w ∈ st.storage._prompt_versions, w.id ≠ genId st.nextId) :
    (revert_to_version st pid vid now).1 = .ok (revertedVersion st pid v now) ∧
    (revert_to_version st pid vid now).2.storage._prompt_versions
      = st.storage._prompt_versions ++ [revertedVersion st pid v now] ∧
    (revertedVersion st pid v now).title = v.title ∧
    (revertedVersion st pid v now).content = v.content ∧
    (revertedVersion st pid v now).description
      = some ("Reverted to version " ++ toString v.version_number) ∧
    (revertedVersion st pid v now).version_number
      = st.storage.get_latest_version_number pid + 1 ∧
    (revert_to_version st pid vid now).2.storage._prompts = st.storage._prompts ∧
    (revert_to_version st pid vid now).2.storage._collections
      = st.storage._collections := by
  rw [revert_success_eq st pid vid now v hv hpid hfresh]
  exact ⟨rfl, rfl, rfl, rfl, rfl, rfl, rfl, rfl⟩

/-- Witness for C2: reverting prompt "p" to its stored version "v1". -/
theorem c2_witness :
    (revert_to_version wState1 "p" "v1" 7).1
      = .ok (revertedVersion wState1 "p" wVersion1 7) ∧
    (revert_to_version wState1 "p" "v1" 7).2.storage._prompt_versions
      = wState1.storage._prompt_versions ++ [revertedVersion wState1 "p" wVersion1 7] ∧
    (revertedVersion wState1 "p" wVersion1 7).title = wVersion1.title ∧
    (revertedVersion wState1 "p" wVersion1 7).content = wVersion1.content ∧
    (revertedVersion wState1 "p" wVersion1 7).description
      = some ("Reverted to version " ++ toString wVersion1.version_number) ∧
    (revertedVersion wState1 "p" wVersion1 7).version_number
      = wState1.storage.get_latest_version_number "p" + 1 ∧
    (revert_to_version wState1 "p" "v1" 7).2.storage._prompts
      = wState1.storage._prompts ∧
    (revert_to_version wState1 "p" "v1" 7).2.storage._collections
      = wState1.storage._collections :=
  c2_revert_is_additive wState1 "p" "v1" 7 wVersion1 (by decide) (by decide) (by decide)

/-- C10: in a state where version `v` belongs to prompt id `P` but no
prompt `P` exists, revert still succeeds and appends a new version, while
create-version and list-versions on `P` fail with NotFound; moreover the
revert outcome does not depend on the prompt table at all. -/
theorem c10_revert_ignores_prompt_table (st : AppState) (P vid : String) (now : Nat)
    (v : PromptVersion) (data : PromptVersionCreate)
    (hnp : st.storage.get_prompt P = none)
    (hv : st.storage.get_version vid = some v)
    (hpid : v.prompt_id = P)
    (hfresh : ∀ w ∈ st.storage._prompt_versions, w.id ≠ genId st.nextId) :
    (revert_to_version st P vid now).1 = .ok (revertedVersion st P v now) ∧
    (revert_to_version st P vid now).2.storage._prompt_versions
      = st.storage._prompt_versions ++ [revertedVersion st P v now] ∧
    create_prompt_version st P data now
      = (.error (.notFound ERROR_PROMPT_NOT_FOUND), st) ∧
    list_prompt_versions st P = .error (.notFound ERROR_PROMPT_NOT_FOUND) ∧
    ∀ ps : List Prompt,
      (revert_to_version
          { storage := { st.storage with _prompts := ps }, nextId := st.nextId }
          P vid now).1
        = (revert_to_version st P vid now).1 := by
  refine ⟨?_, ?_, ?_, ?_, ?_⟩
  · rw [revert_success_eq st P vid now v hv hpid hfresh]
  · rw [revert_success_eq st P vid now v hv hpid hfresh]
  · simp only [create_prompt_version, hnp]
  · simp only [list_prompt_versions, hnp]
  · intro ps
    rw [revert_success_eq st P vid now v hv hpid hfresh,
      revert_success_eq
        { storage := { st.storage with _prompts := ps }, nextId := st.nextId }
        P vid now v hv hpid hfresh]
    rfl

/-- Witness for C10: prompt "p" is absent from `wState1` yet revert of its
stored version succeeds, while create-version and list-versions 404. -/
theorem c10_witness :
    (revert_to_version wState1 "p" "v1" 9).1
      = .ok (revertedVersion wState1 "p" wVersion1 9) ∧
    (revert_to_version wState1 "p" "v1" 9).2.storage._prompt_versions
      = wState1.storage._prompt_versions ++ [revertedVersion wState1 "p" wVersion1 9] ∧
    create_prompt_version wState1 "p"
        { title := "x", content := "y", description := none } 9
      = (.error (.notFound ERROR_PROMPT_NOT_FOUND), wState1) ∧
    list_prompt_versions wState1 "p" = .error (.notFound ERROR_PROMPT_NOT_FOUND) ∧
    ∀ ps : List Prompt,
      (revert_to_version
          { storage := { wState1.storage with _prompts := ps },
            nextId := wState1.nextId }
          "p" "v1" 9).1
        = (revert_to_version wState1 "p" "v1" 9).1 :=
  c10_revert_ignores_prompt_table wState1 "p" "v1" 9 wVersion1
    { title := "x", content := "y", description := none }
    (by decide) (by decide) (by decide) (by decide)

/-! ## C4: collection deletion cascades to member prompts -/

theorem delete_prompt_fields (s : Storage) (pid : String) :
    (s.delete_prompt pid).2._prompts = s._prompts.filter (fun p => !(p.id == pid)) ∧
    (s.delete_prompt pid).2._collections = s._collections ∧
    (s.delete_prompt pid).2._prompt_versions = s._prompt_versions := by
  unfold Storage.delete_prompt
  by_cases h : s._prompts.any (fun p => p.id == pid) = true
  · rw [if_pos h]
    exact ⟨rfl, rfl, rfl⟩
  · rw [if_neg h]
    refine ⟨?_, rfl, rfl⟩
    have hall : ∀ p ∈ s._prompts, ¬(p.id == pid) = true :=
      List.any_eq_false.mp (Bool.eq_false_iff.mpr h)
    exact (List.filter_eq_self.mpr (fun a ha => by simp [hall a ha])).symm

theorem foldl_delete_fields (ps : List Prompt) (s : Storage) :
    (ps.foldl (fun s p => (s.delete_prompt p.id).2) s)._prompts
      = s._prompts.filter (fun q => ps.all (fun p => !(q.id == p.id))) ∧
    (ps.foldl (fun s p => (s.delete_prompt p.id).2) s)._collections = s._collections ∧
    (ps.foldl (fun s p => (s.delete_prompt p.id).2) s)._prompt_versions
      = s._prompt_versions := by
  induction ps generalizing s with
  | nil =>
    refine ⟨?_, rfl, rfl⟩
    exact (List.filter_eq_self.mpr (fun a _ => rfl)).symm
  | cons p ps ih =>
    rw [List.foldl_cons]
    obtain ⟨h1, h2, h3⟩ := ih ((s.delete_prompt p.id).2)
    obtain ⟨g1, g2, g3⟩ := delete_prompt_fields s p.id
    refine ⟨?_, by rw [h2, g2], by rw [h3, g3]⟩
    rw [h1, g1, List.filter_filter]
    apply List.filter_congr
    intro a _
    simp only [List.all_cons]
    exact Bool.and_comm _ _

theorem delete_collection_present (s : Storage) (cid : String)
    (hany : s._collections.any (fun c => c.id == cid) = true) :
    s.delete_collection cid
      = (true, { s with _collections := s._collections.filter (fun c => !(c.id == cid)) }) := by
  unfold Storage.delete_collection
  rw [if_pos hany]

theorem delete_collection_absent (s : Storage) (cid : String)
    (hany : s._collections.any (fun c => c.id == cid) = false) :
    s.delete_collection cid = (false, s) := by
  unfold Storage.delete_collection
  rw [if_neg (by simp [hany])]

/-- C4: when a collection exists, deleting it removes the collection and
every prompt whose `collection_id` equals it (prompts with a different or
null `collection_id` survive, versions are untouched); when it does not
exist the operation fails with NotFound and nothing changes. -/
theorem c4_delete_collection_cascade (st : AppState) (cid : String)
    (hnd : (st.storage._prompts.map Prompt.id).Nodup) :
    ((st.storage.get_collection cid).isSome →
       delete_collection st cid =
         (.ok (),
          { storage :=
              { _prompts :=
                  st.storage._prompts.filter (fun p => !(p.collection_id == some cid))
                _collections :=
                  st.storage._collections.filter (fun c => !(c.id == cid))
                _prompt_versions := st.storage._prompt_versions }
            nextId := st.nextId })) ∧
    (st.storage.get_collection cid = none →
       delete_collection st cid = (.error (.notFound ERROR_COLLECTION_NOT_FOUND), st)) := by
  constructor
  · intro hsome
    obtain ⟨c, hc⟩ := Option.isSome_iff_exists.mp hsome
    have hmem := List.mem_of_find?_eq_some hc
    have hcp := List.find?_some hc
    have hany : st.storage._collections.any (fun c => c.id == cid) = true :=
      List.any_eq_true.mpr ⟨c, hmem, hcp⟩
    unfold delete_collection
    rw [delete_collection_present st.storage cid hany]
    dsimp only
    rw [if_neg (by decide : ¬((!true) = true))]
    dsimp only [Storage.get_prompts_by_collection]
    obtain ⟨f1, f2, f3⟩ := foldl_delete_fields
      (st.storage._prompts.filter (fun p => p.collection_id == some cid))
      { _prompts := st.storage._prompts
        _collections := st.storage._collections.filter (fun c => !(c.id == cid))
        _prompt_versions := st.storage._prompt_versions }
    dsimp only at f1 f2 f3
    have hfilter : st.storage._prompts.filter (fun q =>
          (st.storage._prompts.filter (fun p => p.collection_id == some cid)).all
            (fun p => !(q.id == p.id)))
        = st.storage._prompts.filter (fun p => !(p.collection_id == some cid)) := by
      apply List.filter_congr
      intro q hq
      by_cases hqc : q.collection_id = some cid
      · have hqmem : q ∈ st.storage._prompts.filter
            (fun p => p.collection_id == some cid) :=
          List.mem_filter.mpr ⟨hq, by simp [hqc]⟩
        have hne : ¬((st.storage._prompts.filter
            (fun p => p.collection_id == some cid)).all
              (fun p => !(q.id == p.id)) = true) := by
          intro hall
          have := List.all_eq_true.mp hall q hqmem
          simp at this
        rw [Bool.eq_false_iff.mpr hne, show (!(q.collection_id == some cid)) = false by
          simp [hqc]]
      · have hall : (st.storage._prompts.filter
            (fun p => p.collection_id == some cid)).all
              (fun p => !(q.id == p.id)) = true := by
          apply List.all_eq_true.mpr
          intro p hp
          obtain ⟨hpmem, hpcol⟩ := List.mem_filter.mp hp
          by_contra hcontra
          have hqp : q.id = p.id := by simpa using hcontra
          have hpq : p = q := List.inj_on_of_nodup_map hnd hpmem hq hqp.symm
          rw [hpq] at hpcol
          exact hqc (by simpa using hpcol)
        rw [hall, show (!(q.collection_id == some cid)) = true by simp [hqc]]
    have heta : ∀ x : Storage,
        x = { _prompts := x._prompts, _collections := x._collections,
              _prompt_versions := x._prompt_versions } := fun x => rfl
    simp only [Prod.mk.injEq, AppState.mk.injEq]
    refine ⟨trivial, ?_, trivial⟩
    exact (heta _).trans (by rw [f1, f2, f3, hfilter])
  · intro hnone
    have hany : st.storage._collections.any (fun c => c.id == cid) = false := by
      rw [List.any_eq_false]
      intro c hc hcc
      exact (List.find?_eq_none.mp hnone c hc) hcc
    unfold delete_collection
    rw [delete_collection_absent st.storage cid hany]
    rfl

/-- Concrete fixtures for the cascade-deletion witness. -/
def wCollection : Collection :=
  { name := "Work", description := none, id := "c", created_at := 0 }

def wPromptIn : Prompt :=
  { title := "member", content := "x", description := none,
    collection_id := some "c", id := "p1", created_at := 1, updated_at := 1 }

def wPromptOut : Prompt :=
  { title := "loose", content := "y", description := none,
    collection_id := none, id := "p2", created_at := 2, updated_at := 2 }

def c4State : AppState :=
  { storage := { _prompts := [wPromptIn, wPromptOut],
                 _collections := [wCollection],
                 _prompt_versions := [wVersion1] },
    nextId := 9 }

/-- Witness for C4: deleting collection "c" removes it and its member
prompt "p1" while the loose prompt "p2" and the version table survive. -/
theorem c4_witness :
    delete_collection c4State "c" =
      (.ok (),
       { storage :=
           { _prompts :=
               c4State.storage._prompts.filter (fun p => !(p.collection_id == some "c"))
             _collections :=
               c4State.storage._collections.filter (fun c => !(c.id == "c"))
             _prompt_versions := c4State.storage._prompt_versions }
         nextId := c4State.nextId }) ∧
    (delete_collection c4State "c").2.storage._prompts = [wPromptOut] ∧
    (delete_collection c4State "c").2.storage._prompt_versions = [wVersion1] :=
  ⟨(c4_delete_collection_cascade c4State "c" (by decide)).1 (by decide),
   by decide, by decide⟩

/-! ## C7: creating a prompt against a missing collection -/

/-- The empty start state. -/
def emptyState : AppState :=
  { storage := { _prompts := [], _collections := [], _prompt_versions := [] },
    nextId := 0 }

/-- A create request whose collection_id is the empty string: non-null,
and resolving to no collection. -/
def reqEmptyColl : PromptCreate :=
  { title := "t", content := "c", description := none, collection_id := some "" }

/-- A create request referencing a missing, non-empty collection id. -/
def reqBadColl : PromptCreate :=
  { title := "t", content := "c", description := none, collection_id := some "nope" }

/-- Counterexample to C7 as stated: with `collection_id = some ""` (which
is non-null and resolves to no collection, but is falsy in Python), the
validation is skipped, creation succeeds, and a prompt is stored. -/
theorem c7_counterexample :
    emptyState.storage.get_collection "" = none ∧
    (create_prompt emptyState reqEmptyColl 7).1
      = .ok { title := "t", content := "c", description := none,
              collection_id := some "", id := genId 0,
              created_at := 7, updated_at := 7 } ∧
    (create_prompt emptyState reqEmptyColl 7).2.storage._prompts ≠ [] := by
  decide

/-- C7 (amended): for a create request whose collection_id is non-null,
NON-EMPTY and does not resolve, creation fails with InvalidReference
(HTTP 400) and the state is unchanged; and the store-level create itself
never rejects a write (enforcement is caller-side only). -/
theorem c7_create_checks_reference :
    (∀ (st : AppState) (data : PromptCreate) (now : Nat) (c : String),
       data.collection_id = some c → c ≠ "" →
       st.storage.get_collection c = none →
       create_prompt st data now
         = (.error (.badRequest ERROR_COLLECTION_NOT_FOUND), st)) ∧
    ∀ (s : Storage) (p : Prompt), (s.create_prompt p).1 = p := by
  constructor
  · intro st data now c hc hne hget
    have hcond : validate_collection_fails st.storage data.collection_id = true := by
      unfold validate_collection_fails pyTruthy
      rw [hc]
      simp [hne, hget]
    unfold create_prompt
    rw [if_pos hcond]
  · intro s p
    rfl

/-- Witness for C7 (amended): creating against missing collection "nope"
fails 400 without storing, and the raw store accepts any record. -/
theorem c7_witness :
    create_prompt emptyState reqBadColl 3
      = (.error (.badRequest ERROR_COLLECTION_NOT_FOUND), emptyState) ∧
    (Storage.create_prompt emptyState.storage wPromptOut).1 = wPromptOut :=
  ⟨c7_create_checks_reference.1 emptyState reqBadColl 3 "nope" rfl (by decide) rfl,
   c7_create_checks_reference.2 emptyState.storage wPromptOut⟩

/-! ## C8: full update carries over id and created_at -/

def c8Prompt : Prompt :=
  { title := "a", content := "b", description := none, collection_id := none,
    id := "p", created_at := 1, updated_at := 1 }

def c8State : AppState :=
  { storage := { _prompts := [c8Prompt], _collections := [], _prompt_versions := [] },
    nextId := 5 }

/-- An update request referencing a missing collection. -/
def c8BadReq : PromptUpdate :=
  { title := "a2", content := "b2", description := none, collection_id := some "c" }

/-- An update request with no collection reference. -/
def c8GoodReq : PromptUpdate :=
  { title := "a2", content := "b2", description := some "d", collection_id := none }

/-- Counterexample to C8 as stated: prompt "p" exists, yet the full update
request referencing missing collection "c" fails with 400 and stores
nothing — no stored record gets the fresh `updated_at` stamp 9. -/
theorem c8_counterexample :
    (c8State.storage.get_prompt "p").isSome = true ∧
    update_prompt c8State "p" c8BadReq 9
      = (.error (.badRequest ERROR_COLLECTION_NOT_FOUND), c8State) ∧
    (update_prompt c8State "p" c8BadReq 9).2.storage._prompts.all
      (fun q => q.updated_at != 9) = true := by
  decide

/-- The record that a full update builds: `id` and `created_at` carried
over from the existing record, the rest from the request, `updated_at`
stamped from the clock. -/
@[reducible] def updatedRecord (existing : Prompt) (data : PromptUpdate)
    (now : Nat) : Prompt :=
  { id := existing.id, title := data.title, content := data.content,
    description := data.description, collection_id := data.collection_id,
    created_at := existing.created_at, updated_at := now }

/-- C8 (amended): when the prompt exists and the request's collection
reference passes validation, the stored record keeps `id`/`created_at`
verbatim, takes the remaining fields from the request, and has
`updated_at` stamped from the clock; a failing collection reference gives
InvalidReference and a missing prompt gives NotFound, both without
changing the store. -/
theorem c8_update_preserves_identity (st : AppState) (pid : String)
    (data : PromptUpdate) (now : Nat) :
    (st.storage.get_prompt pid = none →
       update_prompt st pid data now
         = (.error (.notFound ERROR_PROMPT_NOT_FOUND), st)) ∧
    (∀ existing, st.storage.get_prompt pid = some existing →
       validate_collection_fails st.storage data.collection_id = true →
       update_prompt st pid data now
         = (.error (.badRequest ERROR_COLLECTION_NOT_FOUND), st)) ∧
    (∀ existing, st.storage.get_prompt pid = some existing →
       validate_collection_fails st.storage data.collection_id = false →
       update_prompt st pid data now =
         (.ok (updatedRecord existing data now),
          { st with storage :=
              { st.storage with
                  _prompts :=
                    dictSet Prompt.id pid (updatedRecord existing data now)
                      st.storage._prompts } })) := by
  refine ⟨?_, ?_, ?_⟩
  · intro hn
    unfold update_prompt
    rw [hn]
  · intro ex hex hval
    unfold update_prompt
    rw [hex]
    dsimp only
    rw [if_pos hval]
  · intro ex hex hval
    unfold update_prompt
    rw [hex]
    dsimp only
    rw [if_neg (by simp [hval] :
      ¬(validate_collection_fails st.storage data.collection_id = true))]
    have hex2 : st.storage._prompts.find? (fun p => p.id == pid) = some ex := hex
    have hmem := List.mem_of_find?_eq_some hex2
    have hpred := List.find?_some hex2
    have hany : st.storage._prompts.any (fun p => p.id == pid) = true :=
      List.any_eq_true.mpr ⟨ex, hmem, hpred⟩
    unfold Storage.update_prompt
    rw [if_pos hany]

/-- The record stored by the successful C8 witness update. -/
def c8Updated : Prompt :=
  { id := c8Prompt.id, title := c8GoodReq.title, content := c8GoodReq.content,
    description := c8GoodReq.description, collection_id := c8GoodReq.collection_id,
    created_at := c8Prompt.created_at, updated_at := 9 }

/-- Witness for C8 (amended): a missing prompt 404s; a valid full update
of "p" keeps id/created_at and stamps updated_at = 9. -/
theorem c8_witness :
    update_prompt c8State "q" c8GoodReq 9
      = (.error (.notFound ERROR_PROMPT_NOT_FOUND), c8State) ∧
    update_prompt c8State "p" c8GoodReq 9
      = (.ok c8Updated,
         { c8State with storage :=
             { c8State.storage with
                 _prompts :=
                   dictSet Prompt.id "p" c8Updated c8State.storage._prompts } }) :=
  ⟨(c8_update_preserves_identity c8State "q" c8GoodReq 9).1 (by decide),
   (c8_update_preserves_identity c8State "p" c8GoodReq 9).2.2 c8Prompt (by decide) rfl⟩
